import Mathlib

/-!
Verification of the Lua scripting bridge of glirc
(lua-extension/glirc-lua.c).

Shallow embedding: Lua values are an inductive type (tables are
association lists, user script functions are opaque identifiers whose
call behaviour is supplied by an environment), the Lua C API calls the
source uses are total Lean functions, and each C function of the source
file is translated into a Lean definition of the same name
(initialize_lua is rendered as init_lua).  External collaborators
(glirc_print, glirc_resolve_path, libc dirname, the marshalling
functions declared in glirc-marshal.h) appear as parameters of the
model or as observable outputs (diagnostic and close events).
-/

/-- A Lua value as seen by the bridge.  Tables are association lists of
key/value pairs; the model carries no metatables, since the values that
reach the bridge are plain data produced by the user script.  A user
script function is an opaque identifier whose call behaviour is given
by a FuncEnv. -/
inductive LuaValue where
  | nil
  | boolean (b : Bool)
  | num (n : Int)
  | str (s : String)
  | table (entries : List (LuaValue × LuaValue))
  | func (fid : Nat)
  deriving Repr

/-- Truthiness for lua_toboolean: every value is true except nil and
false. -/
def lua_toboolean : LuaValue → Bool
  | .nil => false
  | .boolean b => b
  | _ => true

/-- Conversion for lua_tolstring: the string itself for a string value,
the decimal rendering for a number, and NULL (none) for every other
value - lua_tolstring performs no coercion beyond numbers. -/
def lua_tolstring : LuaValue → Option String
  | .str s => some s
  | .num n => some (toString n)
  | _ => none

/-- Raw equality used by table lookup.  Scalars compare by value;
tables compare by reference in Lua, which the model renders as never
equal, since no table value is aliased in the states the bridge
reaches. -/
def luaPrimEq : LuaValue → LuaValue → Bool
  | .nil, .nil => true
  | .boolean a, .boolean b => a == b
  | .num a, .num b => a == b
  | .str a, .str b => a == b
  | .func a, .func b => a == b
  | _, _ => false

/-- First value stored under an equal key, nil when the key is
absent. -/
def tableLookup (entries : List (LuaValue × LuaValue)) (k : LuaValue) : LuaValue :=
  match entries with
  | [] => .nil
  | (k2, v) :: rest => if luaPrimEq k2 k then v else tableLookup rest k

/-- Model of lua_gettable.  Indexing a table looks the key up (the
tables the bridge reaches carry no metatable).  Indexing a string
raises no error: luaL_openlibs leaves every string with a metatable
whose index entry is the string library, so the lookup yields the
library entry under the key - nil for every key that is not a library
member name, and in particular for each of the four event names the
bridge dispatches (process_message, process_chat, process_command,
stop), none of which is a member of the string library; the member
names themselves (len, sub, ...), which no dispatch of the bridge ever
uses as a key, are beyond the model and also rendered nil.  Indexing
nil, a boolean, a number or a function - values that carry no metatable
after luaL_openlibs - raises a Lua error. -/
def luaGettable (t k : LuaValue) : Except LuaValue LuaValue :=
  match t with
  | .table entries => .ok (tableLookup entries k)
  | .str _ => .ok .nil
  | _ => .error (.str "attempt to index a non-table value")

/-- Model of lua_rawseti on an integer-keyed table. -/
def rawseti (t : List (Int × LuaValue)) (k : Int) (v : LuaValue) :
    List (Int × LuaValue) :=
  match t with
  | [] => [(k, v)]
  | (k2, v2) :: rest =>
    if k2 = k then (k, v) :: rest else (k2, v2) :: rawseti rest k v

/-- Model of lua_rawgeti. -/
def rawgeti (t : List (Int × LuaValue)) (k : Int) : LuaValue :=
  match t with
  | [] => .nil
  | (k2, v) :: rest => if k2 = k then v else rawgeti rest k

/-- Model of lua_settop on a bottom-first stack. -/
def luaSettop (s : List LuaValue) (n : Nat) : List LuaValue := s.take n

/-- Call behaviour of the user script functions: a function identifier
and an argument list yield either a raised error value or the list of
returned values (lua_call adjusts them to the requested count). -/
def FuncEnv : Type := Nat → List LuaValue → Except LuaValue (List LuaValue)

/-- Source callback_worker (glirc-lua.c lines 129-139), the C function
run under lua_pcall by callback.  Its stack holds the event name
followed by the event arguments; it fetches the registered module from
the registry, rearranges the stack to module, arguments, name, looks
the name up in the module with lua_gettable - inside the protected
region - and, when the entry is not nil, calls it with the module and
the event arguments (lua_call with n = 1 + number of event arguments),
keeping the single adjusted result; when the entry is nil the nil on
top of the stack is the result.  First component: the worker outcome
(raised error value on failure); second component: the identifiers of
the script functions invoked. -/
def callback_worker (env : FuncEnv) (reg : LuaValue) (name : LuaValue)
    (eargs : List LuaValue) : Except LuaValue LuaValue × List Nat :=
  match luaGettable reg name with
  | .error e => (.error e, [])
  | .ok cb =>
    match cb with
    | .nil => (.ok .nil, [])
    | .func fid =>
      match env fid (reg :: eargs) with
      | .error e => (.error e, [fid])
      | .ok rets => (.ok (rets.headD .nil), [fid])
    | _ => (.error (.str "attempt to call a non-function value"), [])

/-- Decision returned by the process entrypoints (glirc-api.h
process_result). -/
inductive ProcessResult where
  | PASS_MESSAGE
  | DROP_MESSAGE
  deriving Repr, DecidableEq

/-- Observable outcome of one run of callback: the decision, the
glirc_print payloads emitted (none models a NULL message pointer), the
stack left behind, the registry slot after the run, and the script
functions invoked. -/
structure CallbackOut where
  result : ProcessResult
  diagnostics : List (Option String)
  stackAfter : List LuaValue
  registryAfter : LuaValue
  calls : List Nat
  deriving Repr

/-- Source callback (lines 141-159).  On entry the stack holds the
event name followed by the arguments; the worker is pushed and run
under lua_pcall with one requested result.  On error the error value on
the stack is converted with lua_tolstring, the result is reported
through glirc_print, the stack is cleared with lua_settop(L, 0), and
the decision is PASS_MESSAGE.  On success the single result at stack
index 1 decides DROP_MESSAGE (truthy) against PASS_MESSAGE (falsy), and
the stack is cleared the same way.  The registry is only read. -/
def callback (env : FuncEnv) (reg : LuaValue) (name : LuaValue)
    (eargs : List LuaValue) : CallbackOut :=
  match callback_worker env reg name eargs with
  | (.error e, cs) =>
    { result := .PASS_MESSAGE
      diagnostics := [lua_tolstring e]
      stackAfter := luaSettop [e] 0
      registryAfter := reg
      calls := cs }
  | (.ok r, cs) =>
    { result := if lua_toboolean r then .DROP_MESSAGE else .PASS_MESSAGE
      diagnostics := []
      stackAfter := luaSettop [r] 0
      registryAfter := reg
      calls := cs }

/-- The live data of one extension instance: the registry slot holding
the user module (the glirc_callback_module_key entry) and the Lua stack
between events. -/
structure LuaInst where
  module : LuaValue
  stack : List LuaValue
  deriving Repr

/-- Observable outcome of a process entrypoint. -/
structure EntryOut where
  result : ProcessResult
  diagnostics : List (Option String)
  inst : Option LuaInst
  calls : List Nat
  deriving Repr

/-- Source message_entrypoint (lines 169-175).  The marshalled message
value - push_glirc_message lives in glirc-marshal.h, outside this file -
is the msgv parameter.  A null instance short-circuits to
PASS_MESSAGE. -/
def message_entrypoint (env : FuncEnv) (i : Option LuaInst)
    (msgv : LuaValue) : EntryOut :=
  match i with
  | none => { result := .PASS_MESSAGE, diagnostics := [], inst := none, calls := [] }
  | some st =>
    let out := callback env st.module (.str "process_message") [msgv]
    { result := out.result
      diagnostics := out.diagnostics
      inst := some { module := out.registryAfter, stack := out.stackAfter }
      calls := out.calls }

/-- Source chat_entrypoint (lines 177-183), as message_entrypoint with
the process_chat name and the marshalled chat value. -/
def chat_entrypoint (env : FuncEnv) (i : Option LuaInst)
    (chatv : LuaValue) : EntryOut :=
  match i with
  | none => { result := .PASS_MESSAGE, diagnostics := [], inst := none, calls := [] }
  | some st =>
    let out := callback env st.module (.str "process_chat") [chatv]
    { result := out.result
      diagnostics := out.diagnostics
      inst := some { module := out.registryAfter, stack := out.stackAfter }
      calls := out.calls }

/-- Source command_entrypoint (lines 185-191).  The C function returns
void and discards the decision of callback; the model keeps the whole
outcome observable, the host reads none of the result field. -/
def command_entrypoint (env : FuncEnv) (i : Option LuaInst)
    (cmdv : LuaValue) : EntryOut :=
  match i with
  | none => { result := .PASS_MESSAGE, diagnostics := [], inst := none, calls := [] }
  | some st =>
    let out := callback env st.module (.str "process_command") [cmdv]
    { result := out.result
      diagnostics := out.diagnostics
      inst := some { module := out.registryAfter, stack := out.stackAfter }
      calls := out.calls }

/-- Host-visible effects whose order matters: a glirc_print diagnostic
(payload none models a NULL message pointer) and lua_close. -/
inductive HostEvent where
  | print (msg : Option String)
  | close
  deriving Repr, DecidableEq

/-- Observable outcome of stop_entrypoint. -/
structure StopOut where
  events : List HostEvent
  calls : List Nat
  deriving Repr

/-- Source stop_entrypoint (lines 161-167): on a null instance nothing
happens; otherwise the stop event is dispatched through callback - its
diagnostics are printed during the dispatch - and lua_close runs
afterwards. -/
def stop_entrypoint (env : FuncEnv) (i : Option LuaInst) : StopOut :=
  match i with
  | none => { events := [], calls := [] }
  | some st =>
    let out := callback env st.module (.str "stop") []
    { events := out.diagnostics.map HostEvent.print ++ [HostEvent.close]
      calls := out.calls }

/-- Source push_scriptname (lines 62-79).  dirname (libgen.h) and the
host path resolver glirc_resolve_path are parameters of the model; with
no arguments the pushed string is dirname of the library path joined by
lua_pushfstring with the fixed name glirc.lua, otherwise args[0]
resolved by the host. -/
def push_scriptname (dirname resolve : String → String) (path : String)
    (args : List String) : String :=
  match args with
  | [] => dirname path ++ "/glirc.lua"
  | a0 :: _ => resolve a0

/-- Lines 107-111 of start: lua_createtable, then the loop over
i in [1, args_len) pushing args[i] and storing it with
lua_rawseti(L, -2, 1) - every iteration writes table index 1. -/
def startArgLoop (args : List String) : List (Int × LuaValue) :=
  (args.drop 1).foldl (fun t a => rawseti t 1 (.str a)) []

/-- Lines 41-43 of initialize_lua: the script path is stored at index 0
of the argument table built by start, and the table becomes the global
named arg. -/
def argGlobal (scriptpath : String) (args : List String) :
    List (Int × LuaValue) :=
  rawseti (startArgLoop args) 0 (.str scriptpath)

/-- The arg global a start call exposes to the script: the table built
by the loop of start with the path resolved by push_scriptname stored
at index 0. -/
def startArgGlobal (dirname resolve : String → String) (path : String)
    (args : List String) : List (Int × LuaValue) :=
  argGlobal (push_scriptname dirname resolve path args) args

/-- Outcome of loading (luaL_loadfile) and of running (lua_call) the
user script: each step either raises an error value or succeeds,
running yielding the list of returned values. -/
structure ScriptBehavior where
  load : Except LuaValue Unit
  run : Except LuaValue (List LuaValue)

/-- Source initialize_lua (lines 27-55), run under lua_pcall by start.
After the argument checks it loads the user script - re-raising the
loader error on failure - publishes the arg global, opens the standard
and glirc libraries, runs the script with lua_call(L, 0, 1), the
returned values adjusted to exactly one, and stores that single value,
whatever its type, in the registry under glirc_callback_module_key.
The model returns the stored value. -/
def init_lua (sb : ScriptBehavior) : Except LuaValue LuaValue :=
  match sb.load with
  | .error e => .error e
  | .ok _ =>
    match sb.run with
    | .error e => .error e
    | .ok rets => .ok (rets.headD .nil)

/-- Observable outcome of start. -/
structure StartResult where
  inst : Option LuaInst
  events : List HostEvent
  deriving Repr

/-- Source start (lines 86-126).  extraOk models the LUA_EXTRASPACE
size check, alloc models luaL_newstate returning a state.  On any
failure the cleanup path first reports the error text through
glirc_print and closes the state afterwards, and only when one was
allocated (it tests L before lua_close); on success the instance
carries the value stored in the registry and an empty stack, and no
event is emitted. -/
def start (extraOk alloc : Bool) (sb : ScriptBehavior) : StartResult :=
  if !extraOk then
    { inst := none, events := [.print (some "Lua extraspace too small")] }
  else if !alloc then
    { inst := none, events := [.print (some "Failed to allocate Lua interpreter")] }
  else
    match init_lua sb with
    | .error e => { inst := none, events := [.print (lua_tolstring e), .close] }
    | .ok m => { inst := some { module := m, stack := [] }, events := [] }

/-- One host call into a live instance through a process entrypoint. -/
inductive HostCall where
  | message (v : LuaValue)
  | chat (v : LuaValue)
  | command (v : LuaValue)

/-- The instance state after one entrypoint dispatch. -/
def stepInst (env : FuncEnv) (st : LuaInst) (c : HostCall) : LuaInst :=
  let out :=
    match c with
    | .message v => callback env st.module (.str "process_message") [v]
    | .chat v => callback env st.module (.str "process_chat") [v]
    | .command v => callback env st.module (.str "process_command") [v]
  { module := out.registryAfter, stack := out.stackAfter }

/-- True when no print event follows a close event: the interpreter is
never closed before a diagnostic that is still to be emitted. -/
def closesAfterPrints : List HostEvent → Bool
  | [] => true
  | HostEvent.print _ :: rest => closesAfterPrints rest
  | HostEvent.close :: rest =>
    rest.all fun e =>
      match e with
      | HostEvent.print _ => false
      | HostEvent.close => true

/-! Helper lemmas shared by the claim theorems. -/

/-- The stack is empty after every run of callback: both branches end in
lua_settop(L, 0). -/
theorem callback_stackAfter (env : FuncEnv) (reg name : LuaValue)
    (eargs : List LuaValue) : (callback env reg name eargs).stackAfter = [] := by
  unfold callback
  split <;> rfl

/-- callback never writes the registry slot. -/
theorem callback_registryAfter (env : FuncEnv) (reg name : LuaValue)
    (eargs : List LuaValue) : (callback env reg name eargs).registryAfter = reg := by
  unfold callback
  split <;> rfl

/-- Every entrypoint step yields an empty stack. -/
theorem stepInst_stack (env : FuncEnv) (st : LuaInst) (c : HostCall) :
    (stepInst env st c).stack = [] := by
  cases c <;> exact callback_stackAfter env st.module _ _

/-- A trace of prints followed by a single close never closes before a
print. -/
theorem closesAfterPrints_map_print_close (l : List (Option String)) :
    closesAfterPrints (l.map HostEvent.print ++ [HostEvent.close]) = true := by
  induction l with
  | nil => rfl
  | cons a l ih => simpa [closesAfterPrints] using ih

/-! Claim theorems. -/

/-- C1: evaluation of the arg global built by a start call with three
arguments.  Index 0 holds the resolved script path as claimed, but
index 1 holds the last extra argument and index 2 holds nil: the loop
of start stores every extra argument with lua_rawseti(L, -2, 1), so the
claimed layout arg[i] = args[i] for i = 1 .. n-1 fails (the claim
expects index 1 = "alpha" and index 2 = "beta"). -/
theorem C1_arg_table_three_args_evidence :
    rawgeti (startArgGlobal id (fun s => "/resolved/" ++ s) "/usr/lib/glirc.so"
      ["script.lua", "alpha", "beta"]) 0 = .str "/resolved/script.lua" ∧
    rawgeti (startArgGlobal id (fun s => "/resolved/" ++ s) "/usr/lib/glirc.so"
      ["script.lua", "alpha", "beta"]) 1 = .str "beta" ∧
    rawgeti (startArgGlobal id (fun s => "/resolved/" ++ s) "/usr/lib/glirc.so"
      ["script.lua", "alpha", "beta"]) 2 = .nil :=
  ⟨rfl, rfl, rfl⟩

/-- C2 counterexample: a run whose script loads, runs to completion and
returns the number 42 - not a table.  start does not fail: it returns a
live instance whose registry slot holds 42 and it reports nothing, so
the claim that start reports an error and returns a null instance is
false at this input. -/
theorem C2_nontable_start_succeeds :
    (start true true { load := .ok (), run := .ok [.num 42] }).inst ≠ none ∧
    (start true true { load := .ok (), run := .ok [.num 42] }).events = [] :=
  ⟨fun h => Option.noConfusion h, rfl⟩

/-- C3 evidence: a live instance whose process_message callback raises
a table as its error value.  The protected call catches it, but the
dispatch converts it with lua_tolstring, which yields NULL (none) for a
table, so glirc_print receives a NULL message with length 0 instead of
a textual coercion of the error value. -/
theorem C3_table_error_reported_as_null :
    (message_entrypoint (fun _ _ => .error (.table []))
      (some { module := .table [(.str "process_message", .func 0)], stack := [] })
      .nil).diagnostics = [none] ∧
    (message_entrypoint (fun _ _ => .error (.table []))
      (some { module := .table [(.str "process_message", .func 0)], stack := [] })
      .nil).result = .PASS_MESSAGE :=
  ⟨rfl, rfl⟩

/-- C8: the script path pushed by start.  With no extra arguments it is
the directory part of the library path joined with the fixed name
glirc.lua; with at least one argument it is args[0] resolved through
the host path-resolution service. -/
theorem C8_script_path_resolution (dirname resolve : String → String)
    (path : String) :
    push_scriptname dirname resolve path [] = dirname path ++ "/glirc.lua" ∧
    ∀ (a0 : String) (rest : List String),
      push_scriptname dirname resolve path (a0 :: rest) = resolve a0 :=
  ⟨rfl, fun _ _ => rfl⟩

/-- C10: when luaL_newstate returns NULL (the extraspace check having
passed), start reports exactly the message Failed to allocate Lua
interpreter and returns a null instance, and its event trace holds no
close: no interpreter release is attempted. -/
theorem C10_alloc_failure_reports_and_returns_null (sb : ScriptBehavior) :
    start true false sb =
      { inst := none
        events := [.print (some "Failed to allocate Lua interpreter")] } :=
  rfl

/-- C2 amended: when the user script loads and runs to completion,
start does not fail, whatever the type of the returned value: it
reports nothing and returns a live instance whose registry slot stores
that value - the single lua_call result is stored unchecked, so a
non-table return is only felt at later dispatches. -/
theorem C2_start_stores_any_returned_value (v : LuaValue) :
    start true true { load := .ok (), run := .ok [v] } =
      { inst := some { module := v, stack := [] }, events := [] } :=
  rfl

/-- C4: on every path of start and of stop_entrypoint the trace of host
effects never closes the interpreter before a diagnostic print - every
diagnostic that is emitted on a path that also closes the interpreter
is emitted strictly before the close. -/
theorem C4_diagnostics_precede_close :
    (∀ (extraOk alloc : Bool) (sb : ScriptBehavior),
      closesAfterPrints (start extraOk alloc sb).events = true) ∧
    (∀ (env : FuncEnv) (i : Option LuaInst),
      closesAfterPrints (stop_entrypoint env i).events = true) := by
  constructor
  · intro extraOk alloc sb
    cases extraOk with
    | false => rfl
    | true =>
      cases alloc with
      | false => rfl
      | true =>
        cases h : init_lua sb with
        | error e => simp [start, h, closesAfterPrints]
        | ok m => simp [start, h, closesAfterPrints]
  · intro env i
    cases i with
    | none => rfl
    | some st =>
      exact closesAfterPrints_map_print_close
        ((callback env st.module (.str "stop") []).diagnostics)

/-- C5: dispatch of a Message or of a Chat event on a live instance
whose callback for that event returns normally.  Each event is covered
on its own, whatever else the module table defines: the entrypoint
answers DROP_MESSAGE exactly when the single returned value - the first
one, nil when the callback returned nothing - is truthy, and
PASS_MESSAGE when it is falsy or absent. -/
theorem C5_truthiness_decides_drop (env : FuncEnv)
    (t : List (LuaValue × LuaValue)) :
    (∀ (msgv : LuaValue) (fm : Nat) (rm : List LuaValue),
      tableLookup t (.str "process_message") = .func fm →
      env fm [.table t, msgv] = .ok rm →
      (message_entrypoint env (some { module := .table t, stack := [] }) msgv).result =
        (if lua_toboolean (rm.headD .nil) then .DROP_MESSAGE else .PASS_MESSAGE)) ∧
    (∀ (chatv : LuaValue) (fc : Nat) (rc : List LuaValue),
      tableLookup t (.str "process_chat") = .func fc →
      env fc [.table t, chatv] = .ok rc →
      (chat_entrypoint env (some { module := .table t, stack := [] }) chatv).result =
        (if lua_toboolean (rc.headD .nil) then .DROP_MESSAGE else .PASS_MESSAGE)) := by
  constructor
  · intro msgv fm rm hm hrm
    simp [message_entrypoint, callback, callback_worker, luaGettable, hm, hrm]
  · intro chatv fc rc hc hrc
    simp [chat_entrypoint, callback, callback_worker, luaGettable, hc, hrc]

/-- C5 witness: a module defining only process_message, whose callback
returns true - the message dispatch drops - and a module defining only
process_chat, whose callback returns no value - the chat dispatch
passes. -/
theorem C5_truthiness_decides_drop_w :
    (message_entrypoint (fun _ _ => .ok [.boolean true])
      (some { module := .table [(.str "process_message", .func 0)], stack := [] })
      .nil).result = .DROP_MESSAGE ∧
    (chat_entrypoint (fun _ _ => .ok [])
      (some { module := .table [(.str "process_chat", .func 1)], stack := [] })
      .nil).result = .PASS_MESSAGE :=
  ⟨(C5_truthiness_decides_drop (fun _ _ => .ok [.boolean true])
      [(.str "process_message", .func 0)]).1 .nil 0 [.boolean true] rfl rfl,
   (C5_truthiness_decides_drop (fun _ _ => .ok [])
      [(.str "process_chat", .func 1)]).2 .nil 1 [] rfl rfl⟩

/-- C6: dispatch of an event on a live instance whose module table has
no entry under that event's name - each event on its own, whatever else
the table defines (a script defining only some callbacks included).
The entrypoint performs the lookup, finds nil, invokes no script
function, emits no diagnostic, and answers PASS_MESSAGE; the command
entrypoint (whose decision the host discards) likewise reports nothing
and calls nothing, and the stop entrypoint emits only the final
close. -/
theorem C6_missing_callback_is_noop (env : FuncEnv)
    (t : List (LuaValue × LuaValue)) :
    (∀ msgv : LuaValue, tableLookup t (.str "process_message") = .nil →
      message_entrypoint env (some { module := .table t, stack := [] }) msgv =
        { result := .PASS_MESSAGE, diagnostics := []
          inst := some { module := .table t, stack := [] }, calls := [] }) ∧
    (∀ chatv : LuaValue, tableLookup t (.str "process_chat") = .nil →
      chat_entrypoint env (some { module := .table t, stack := [] }) chatv =
        { result := .PASS_MESSAGE, diagnostics := []
          inst := some { module := .table t, stack := [] }, calls := [] }) ∧
    (∀ cmdv : LuaValue, tableLookup t (.str "process_command") = .nil →
      (command_entrypoint env (some { module := .table t, stack := [] }) cmdv).diagnostics
          = [] ∧
      (command_entrypoint env (some { module := .table t, stack := [] }) cmdv).calls
          = []) ∧
    (tableLookup t (.str "stop") = .nil →
      (stop_entrypoint env (some { module := .table t, stack := [] })).events
          = [HostEvent.close] ∧
      (stop_entrypoint env (some { module := .table t, stack := [] })).calls = []) := by
  refine ⟨?_, ?_, ?_, ?_⟩
  · intro msgv hm
    simp [message_entrypoint, callback, callback_worker, luaGettable, luaSettop,
      lua_toboolean, hm]
  · intro chatv hc
    simp [chat_entrypoint, callback, callback_worker, luaGettable, luaSettop,
      lua_toboolean, hc]
  · intro cmdv hk
    constructor <;>
      simp [command_entrypoint, callback, callback_worker, luaGettable, luaSettop, hk]
  · intro hs
    constructor <;>
      simp [stop_entrypoint, callback, callback_worker, luaGettable, luaSettop, hs]

/-- C6 witness, at the scenario of the specification: a module defining
only process_command.  A chat and a message dispatch pass with no
diagnostic and no script call, and stop emits only the close. -/
theorem C6_missing_callback_is_noop_w :
    chat_entrypoint (fun _ _ => .ok [])
      (some { module := .table [(.str "process_command", .func 0)], stack := [] })
      .nil =
      { result := .PASS_MESSAGE, diagnostics := []
        inst := some { module := .table [(.str "process_command", .func 0)], stack := [] }
        calls := [] } ∧
    message_entrypoint (fun _ _ => .ok [])
      (some { module := .table [(.str "process_command", .func 0)], stack := [] })
      .nil =
      { result := .PASS_MESSAGE, diagnostics := []
        inst := some { module := .table [(.str "process_command", .func 0)], stack := [] }
        calls := [] } ∧
    (stop_entrypoint (fun _ _ => .ok [])
      (some { module := .table [(.str "process_command", .func 0)], stack := [] })).events
      = [HostEvent.close] ∧
    (stop_entrypoint (fun _ _ => .ok [])
      (some { module := .table [(.str "process_command", .func 0)], stack := [] })).calls
      = [] :=
  ⟨(C6_missing_callback_is_noop (fun _ _ => .ok [])
      [(.str "process_command", .func 0)]).2.1 .nil rfl,
   (C6_missing_callback_is_noop (fun _ _ => .ok [])
      [(.str "process_command", .func 0)]).1 .nil rfl,
   ((C6_missing_callback_is_noop (fun _ _ => .ok [])
      [(.str "process_command", .func 0)]).2.2.2 rfl).1,
   ((C6_missing_callback_is_noop (fun _ _ => .ok [])
      [(.str "process_command", .func 0)]).2.2.2 rfl).2⟩

/-- C7: a live instance whose callback for the dispatched event raises
an error.  The protected dispatch answers PASS_MESSAGE, exactly one
diagnostic - the lua_tolstring rendering of the error value - is
reported, the registry slot is untouched and the stack is cleared, so a
later message dispatch on the resulting instance behaves exactly as on
a fresh running instance. -/
theorem C7_callback_error_is_isolated (env : FuncEnv)
    (t : List (LuaValue × LuaValue)) (name : String) (eargs : List LuaValue)
    (fid : Nat) (e : LuaValue)
    (hl : tableLookup t (.str name) = .func fid)
    (he : env fid (.table t :: eargs) = .error e) :
    (callback env (.table t) (.str name) eargs).result = .PASS_MESSAGE ∧
    (callback env (.table t) (.str name) eargs).diagnostics = [lua_tolstring e] ∧
    (callback env (.table t) (.str name) eargs).registryAfter = .table t ∧
    (callback env (.table t) (.str name) eargs).stackAfter = [] ∧
    ∀ v2 : LuaValue,
      message_entrypoint env
        (some { module := (callback env (.table t) (.str name) eargs).registryAfter
                stack := (callback env (.table t) (.str name) eargs).stackAfter }) v2 =
      message_entrypoint env (some { module := .table t, stack := [] }) v2 := by
  refine ⟨?_, ?_, ?_, ?_, ?_⟩ <;>
    simp [callback, callback_worker, luaGettable, luaSettop, hl, he]

/-- C7 witness: a process_message callback raising the string boom. -/
theorem C7_callback_error_is_isolated_w :
    tableLookup [(.str "process_message", .func 0)] (.str "process_message")
      = .func 0 ∧
    ((callback (fun _ _ => .error (.str "boom"))
        (.table [(.str "process_message", .func 0)]) (.str "process_message")
        [.nil]).result = .PASS_MESSAGE ∧
      (callback (fun _ _ => .error (.str "boom"))
        (.table [(.str "process_message", .func 0)]) (.str "process_message")
        [.nil]).diagnostics = [lua_tolstring (.str "boom")] ∧
      (callback (fun _ _ => .error (.str "boom"))
        (.table [(.str "process_message", .func 0)]) (.str "process_message")
        [.nil]).registryAfter = .table [(.str "process_message", .func 0)] ∧
      (callback (fun _ _ => .error (.str "boom"))
        (.table [(.str "process_message", .func 0)]) (.str "process_message")
        [.nil]).stackAfter = [] ∧
      ∀ v2 : LuaValue,
        message_entrypoint (fun _ _ => .error (.str "boom"))
          (some { module := (callback (fun _ _ => .error (.str "boom"))
                    (.table [(.str "process_message", .func 0)])
                    (.str "process_message") [.nil]).registryAfter
                  stack := (callback (fun _ _ => .error (.str "boom"))
                    (.table [(.str "process_message", .func 0)])
                    (.str "process_message") [.nil]).stackAfter }) v2 =
        message_entrypoint (fun _ _ => .error (.str "boom"))
          (some { module := .table [(.str "process_message", .func 0)], stack := [] })
          v2) :=
  ⟨rfl, C7_callback_error_is_isolated (fun _ _ => .error (.str "boom"))
    [(.str "process_message", .func 0)] "process_message" [.nil] 0 (.str "boom")
    rfl rfl⟩

/-- C9: both branches of callback end in lua_settop(L, 0), so every
dispatch leaves the interpreter stack empty; consequently, along any
sequence of process entrypoint calls starting from a freshly started
instance, the stack between events is always empty. -/
theorem C9_stack_empty_between_events (env : FuncEnv) :
    (∀ (reg name : LuaValue) (eargs : List LuaValue),
      (callback env reg name eargs).stackAfter = []) ∧
    (∀ (m : LuaValue) (evs : List HostCall),
      (evs.foldl (stepInst env) { module := m, stack := [] }).stack = []) := by
  refine ⟨fun reg name eargs => callback_stackAfter env reg name eargs, ?_⟩
  have key : ∀ (evs : List HostCall) (st : LuaInst), st.stack = [] →
      (evs.foldl (stepInst env) st).stack = [] := by
    intro evs
    induction evs with
    | nil => intro st h; exact h
    | cons c cs ih => intro st _; exact ih (stepInst env st c) (stepInst_stack env st c)
  exact fun m evs => key evs { module := m, stack := [] } rfl
